import Mathlib

/-!
Verification of the Chalice GraphQL HTTP adapter
(`strawberry/chalice/views.py`, class `GraphQLView`).

The adapter translates one inbound HTTP request into at most one GraphQL
execution call and translates the outcome into one HTTP response.  We give a
shallow embedding of the module: JSON values, the host framework's request
and response objects, the adapter configuration, and the control flow of
`GraphQLView.execute_request`.  Collaborators that live outside the source
file under verification (the GraphQL engine, `parse_query_params`,
`parse_request_data`, `OperationType.from_http`, `process_result`,
`render_graphiql_page`, `InvalidOperationTypeError.as_http_error_reason`)
are modelled from the specification, as documented on each definition.
-/

/-- A JSON value, as produced by parsing a request body or a query-string
parameter.  Mirrors what Python's `json.loads` can return: `None`, booleans,
numbers (modelled as integers; the distinction is irrelevant here), strings,
arrays and objects (dicts, modelled as association lists). -/
inductive JsonValue : Type
  | null : JsonValue
  | bool (b : Bool) : JsonValue
  | num (n : Int) : JsonValue
  | str (s : String) : JsonValue
  | arr (elts : List JsonValue) : JsonValue
  | obj (fields : List (String × JsonValue)) : JsonValue

/-- Substring containment on `List Char`: Python's `needle in haystack`. -/
def charsContain (pat : List Char) : List Char → Bool
  | [] => pat.isEmpty
  | c :: cs => pat.isPrefixOf (c :: cs) || charsContain pat cs

/-- Substring containment on strings: Python's `pat in s`. -/
def strContains (s pat : String) : Bool :=
  charsContain pat.data s.data

/-- The host framework's (Chalice's) request object, as seen by the adapter.

* `method` is the HTTP method string.
* `headers` models Chalice's case-insensitive header mapping; keys are
  stored already lower-cased, matching the lookups `headers.get("content-type")`
  and `headers.get("accept")` in the source.
* `query_params` models `request.query_params`; Chalice supplies `None` or a
  (possibly empty) multi-dict, both of which are falsy exactly when the list
  here is empty.
* `json_body` models the `request.json_body` property: Chalice parses the raw
  body with `json.loads` and raises `BadRequestError` on malformed JSON, so
  the field records the outcome of that external parse (`none` is the
  `BadRequestError` case). -/
structure Request : Type where
  method : String
  headers : List (String × String)
  query_params : List (String × String)
  json_body : Option JsonValue

/-- `request.headers.get(key, default)`. -/
def headers_get (hs : List (String × String)) (key dflt : String) : String :=
  match hs.lookup key with
  | some v => v
  | none => dflt

/-- The host framework's response object: body (a value that the framework
serializes), status code and headers. -/
structure Response : Type where
  body : JsonValue
  status_code : Nat
  headers : List (String × String)

/-- The adapter configuration fixed at construction: the explorer
(`graphiql`) flag and the `allow_queries_via_get` flag.  The schema reference
itself is modelled separately as the `Engine` oracle. -/
structure Config : Type where
  graphiql : Bool
  allow_queries_via_get : Bool

/-- GraphQL operation kinds (`strawberry.types.graphql.OperationType`). -/
inductive OperationType : Type
  | query : OperationType
  | mutation : OperationType
  | subscription : OperationType
deriving DecidableEq

/-- Modelled from the spec: `OperationType.from_http` (in
`strawberry/types/graphql.py`, not part of the file under verification) maps
an HTTP method to the operation kinds it permits — "POST permits all kinds;
GET permits query only".  Other methods never reach this point (the view
rejects them with 405 first); we return the empty set for them. -/
def OperationType.from_http (method : String) : List OperationType :=
  if method = "GET" then [OperationType.query]
  else if method = "POST" then
    [OperationType.query, OperationType.mutation, OperationType.subscription]
  else []

/-- Modelled from the spec: the display name used by
`InvalidOperationTypeError.as_http_error_reason`. -/
def OperationType.asStr : OperationType → String
  | OperationType.query => "queries"
  | OperationType.mutation => "mutations"
  | OperationType.subscription => "subscriptions"

/-- Modelled from the spec: `InvalidOperationTypeError.as_http_error_reason`
(in `strawberry/schema/exceptions.py`, not part of the file under
verification) renders "an explanatory message that references the method". -/
def as_http_error_reason (op : OperationType) (method : String) : String :=
  op.asStr ++ " are not allowed when using " ++ method

/-- Modelled from the spec: `TemporalResponse`
(`strawberry/http/temporal_response.py`), the mutable response placeholder
exposed to the engine through the context; its status code starts at 200. -/
structure TemporalResponse : Type where
  status_code : Nat

/-- The GraphQL execution outcome ("ExecutionOutcome" in the spec): data
payload, error list, extensions. -/
structure ExecutionResult : Type where
  data : JsonValue
  errors : List JsonValue
  extensions : List (String × JsonValue)

/-- Modelled from the spec: `process_result` (`strawberry/http/__init__.py`,
not part of the file under verification) serializes the execution outcome
into the engine-defined GraphQL response shape (`data`/`errors`/`extensions`). -/
def process_result (result : ExecutionResult) : JsonValue :=
  JsonValue.obj
    [("data", result.data),
     ("errors", JsonValue.arr result.errors),
     ("extensions", JsonValue.obj result.extensions)]

/-- The parsed operation ("ParsedOperation" in the spec,
`GraphQLRequestData` in strawberry): query text, optional variables,
optional operation name.  The `variables` field is called `variable_values`
here (its keyword name at the `execute_sync` call site) because `variables`
is reserved in Lean. -/
structure GraphQLRequestData : Type where
  query : JsonValue
  variable_values : Option JsonValue
  operation_name : Option JsonValue

/-- Modelled from the spec: `parse_request_data`
(`strawberry/http/__init__.py`, not part of the file under verification)
extracts query / variables / operation name from the parsed mapping;
"missing query text" raises `MissingQueryError` (the `none` case). -/
def parse_request_data (data : List (String × JsonValue)) :
    Option GraphQLRequestData :=
  match data.lookup "query" with
  | none => none
  | some q =>
      some
        { query := q
          variable_values := data.lookup "variables"
          operation_name := data.lookup "operationName" }

/-- Modelled from the spec: `parse_query_params`
(`strawberry/http/__init__.py`, not part of the file under verification)
turns the GET query-string parameters into the same mapping shape as a JSON
body; the `variables` parameter is itself JSON text and is decoded with the
ambient JSON decoder `loads` (Python's `json.loads`), whose failure
(`json.JSONDecodeError`, the `none` case) means "malformed JSON inside a
parameter".  Other parameters are kept as strings. -/
def parse_query_params (loads : String → Option JsonValue)
    (params : List (String × String)) :
    Option (List (String × JsonValue)) :=
  match params with
  | [] => some []
  | (k, v) :: rest =>
      match parse_query_params loads rest with
      | none => none
      | some tail =>
          if k = "variables" then
            match loads v with
            | none => none
            | some jv => some ((k, jv) :: tail)
          else some ((k, JsonValue.str v) :: tail)

/-- The GraphQL engine (`schema.execute_sync` behind `BaseSchema`), modelled
as an oracle: from the parsed operation it determines the operation kind of
the requested operation, the execution outcome, and the status code (if any)
that engine-side resolvers set on the mutable response placeholder. -/
structure Engine : Type where
  opType : GraphQLRequestData → OperationType
  run : GraphQLRequestData → ExecutionResult
  setStatus : GraphQLRequestData → Option Nat

/-- Modelled from the spec: `schema.execute_sync` raises
`InvalidOperationTypeError` (the `Except.error` case, carrying the offending
kind) exactly when the requested operation's kind is outside
`allowed_operation_types`; otherwise it produces the execution outcome and
leaves the placeholder either untouched or set to the resolver-chosen
status. -/
def execute_sync (eng : Engine) (allowed : List OperationType)
    (rd : GraphQLRequestData) (tr : TemporalResponse) :
    Except OperationType (ExecutionResult × TemporalResponse) :=
  if eng.opType rd ∈ allowed then
    Except.ok (eng.run rd,
      { status_code := (eng.setStatus rd).getD tr.status_code })
  else Except.error (eng.opType rd)

/-- Modelled from the spec: `render_graphiql_page`
(`strawberry/chalice/graphiql.py`, not part of the file under verification)
returns the static explorer HTML page as a string. -/
def render_graphiql_page : String :=
  "<!DOCTYPE html><html>GraphiQL explorer page</html>"

/-- `GraphQLView.error_response`: the structured error wrapper.  The body is
the dict `{"Code": error_code, "Message": message}`; the `headers` argument
defaults to none in the source and is never passed at any call site, so it is
omitted here. -/
def error_response (message : String) (error_code : String)
    (http_status_code : Nat) : Response :=
  { body := JsonValue.obj
      [("Code", JsonValue.str error_code), ("Message", JsonValue.str message)]
    status_code := http_status_code
    headers := [] }

/-- `GraphQLView.should_render_graphiql`: false when the explorer flag is
off, otherwise true iff the raw `accept` header value (missing header read as
the empty string) contains `"text/html"` or `"*/*"` as a substring. -/
def should_render_graphiql (graphiql : Bool) (r : Request) : Bool :=
  if graphiql = false then false
  else
    strContains (headers_get r.headers "accept" "") "text/html"
      || strContains (headers_get r.headers "accept" "") "*/*"

/-- The `if "application/json" in content_type / elif / elif / else` chain of
`execute_request` that either produces the parsed mapping `data` or returns
early with a response (`Except.error` is the early return).  Factored out of
`execute_request` for statement reuse; the branch structure and all messages
are verbatim from the source. -/
def get_request_data (cfg : Config) (loads : String → Option JsonValue)
    (r : Request) : Except Response (List (String × JsonValue)) :=
  if strContains (headers_get r.headers "content-type" "") "application/json"
      = true then
    match r.json_body with
    | none =>
        Except.error (error_response "Unable to parse request body as JSON"
          "BadRequestError" 400)
    | some (JsonValue.obj fields) => Except.ok fields
    | some _ =>
        Except.error (error_response
          "Provide a valid graphql query in the body of your request"
          "BadRequestError" 400)
  else if r.method = "GET" ∧ r.query_params ≠ [] then
    match parse_query_params loads r.query_params with
    | none =>
        Except.error (error_response "Unable to parse request body as JSON"
          "BadRequestError" 400)
    | some d => Except.ok d
  else if r.method = "GET" ∧ should_render_graphiql cfg.graphiql r = true then
    Except.error
      { body := JsonValue.str render_graphiql_page
        headers := [("content-type", "text/html")]
        status_code := 200 }
  else
    Except.error (error_response "Not found" "NotFoundError" 404)

/-- The permitted operation kinds for a request: `OperationType.from_http`
restricted by the `allow_queries_via_get` flag, exactly as computed inline in
`execute_request` (`allowed_operation_types - {OperationType.QUERY}`). -/
def allowed_operation_types (cfg : Config) (method : String) :
    List OperationType :=
  if cfg.allow_queries_via_get = false ∧ method = "GET" then
    (OperationType.from_http method).filter (fun t => t ≠ OperationType.query)
  else OperationType.from_http method

/-- `GraphQLView.execute_request`.  The context built by `get_context` always
contains the `"response"` key holding a fresh `TemporalResponse` (initial
status 200), so the final `if "response" in context` in the source always
takes its status code from the placeholder as left by the engine. -/
def execute_request (cfg : Config) (eng : Engine)
    (loads : String → Option JsonValue) (r : Request) : Response :=
  if ¬ (r.method = "POST" ∨ r.method = "GET") then
    error_response "Unsupported method, must be of request type POST or GET"
      "MethodNotAllowedError" 405
  else
    match get_request_data cfg loads r with
    | Except.error resp => resp
    | Except.ok data =>
        match parse_request_data data with
        | none =>
            error_response "No GraphQL query found in the request"
              "BadRequestError" 400
        | some request_data =>
            match execute_sync eng (allowed_operation_types cfg r.method)
                request_data { status_code := 200 } with
            | Except.error op =>
                error_response (as_http_error_reason op r.method)
                  "BadRequestError" 400
            | Except.ok (result, tr) =>
                { body := process_result result
                  status_code := tr.status_code
                  headers := [] }

/-! ### Helper lemmas -/

theorem isPrefixOf_self (l : List Char) : l.isPrefixOf l = true := by
  induction l with
  | nil => rfl
  | cons c cs ih => simp [List.isPrefixOf, ih]

theorem charsContain_append_self (pat : List Char) :
    ∀ l : List Char, charsContain pat (l ++ pat) = true := by
  intro l
  induction l with
  | nil =>
      cases pat with
      | nil => rfl
      | cons c cs => simp [charsContain, isPrefixOf_self]
  | cons c cs ih => simp [charsContain, ih]

theorem strContains_append_self (s pat : String) :
    strContains (s ++ pat) pat = true := by
  simp only [strContains, String.data_append]
  exact charsContain_append_self pat.data s.data

theorem as_http_error_reason_mentions_method (op : OperationType)
    (method : String) :
    strContains (as_http_error_reason op method) method = true := by
  have h : as_http_error_reason op method
      = (op.asStr ++ " are not allowed when using ") ++ method := by
    simp [as_http_error_reason, String.ext_iff, String.data_append,
      List.append_assoc]
  rw [h]
  exact strContains_append_self _ method

/-- Concrete sample configuration used by the witnesses. -/
def cfgW : Config := { graphiql := true, allow_queries_via_get := true }

/-- Concrete sample engine used by the witnesses: every query is a mutation,
execution yields an empty outcome, and resolvers leave the placeholder
untouched. -/
def engW : Engine :=
  { opType := fun _ => OperationType.mutation
    run := fun _ =>
      { data := JsonValue.null, errors := [], extensions := [] }
    setStatus := fun _ => none }

/-- Concrete sample JSON decoder used by the witnesses: accepts only the text
`"{}"`, as the empty object. -/
def loadsW : String → Option JsonValue :=
  fun s => if s = "{}" then some (JsonValue.obj []) else none

/-- The explorer-page response built inline in `execute_request`. -/
def graphiql_response : Response :=
  { body := JsonValue.str render_graphiql_page
    headers := [("content-type", "text/html")]
    status_code := 200 }

/-! ### Branch-evaluation lemmas -/

theorem execute_sync_allowed (eng : Engine) (allowed : List OperationType)
    (rd : GraphQLRequestData) (tr : TemporalResponse)
    (h : eng.opType rd ∈ allowed) :
    execute_sync eng allowed rd tr =
      Except.ok (eng.run rd,
        { status_code := (eng.setStatus rd).getD tr.status_code }) := by
  unfold execute_sync
  rw [if_pos h]

theorem execute_sync_not_allowed (eng : Engine) (allowed : List OperationType)
    (rd : GraphQLRequestData) (tr : TemporalResponse)
    (h : eng.opType rd ∉ allowed) :
    execute_sync eng allowed rd tr = Except.error (eng.opType rd) := by
  unfold execute_sync
  rw [if_neg h]

theorem should_render_graphiql_true_elim (g : Bool) (r : Request)
    (h : should_render_graphiql g r = true) :
    g = true
    ∧ (strContains (headers_get r.headers "accept" "") "text/html" = true
        ∨ strContains (headers_get r.headers "accept" "") "*/*" = true) := by
  unfold should_render_graphiql at h
  by_cases hg : g = false
  · rw [if_pos hg] at h
    exact absurd h (by simp)
  · refine ⟨by simpa using hg, ?_⟩
    rw [if_neg hg] at h
    exact (Bool.or_eq_true _ _).mp h

theorem should_render_graphiql_false_of_accept (g : Bool) (r : Request)
    (h1 : strContains (headers_get r.headers "accept" "") "text/html" = false)
    (h2 : strContains (headers_get r.headers "accept" "") "*/*" = false) :
    should_render_graphiql g r = false := by
  unfold should_render_graphiql
  by_cases hg : g = false
  · rw [if_pos hg]
  · rw [if_neg hg, h1, h2]
    rfl

theorem execute_request_early (cfg : Config) (eng : Engine)
    (loads : String → Option JsonValue) (r : Request) (resp : Response)
    (hm : r.method = "POST" ∨ r.method = "GET")
    (hd : get_request_data cfg loads r = Except.error resp) :
    execute_request cfg eng loads r = resp := by
  unfold execute_request
  rw [if_neg (not_not_intro hm), hd]

theorem execute_request_of_data (cfg : Config) (eng : Engine)
    (loads : String → Option JsonValue) (r : Request)
    (d : List (String × JsonValue))
    (hm : r.method = "POST" ∨ r.method = "GET")
    (hd : get_request_data cfg loads r = Except.ok d) :
    execute_request cfg eng loads r =
      (match parse_request_data d with
       | none =>
           error_response "No GraphQL query found in the request"
             "BadRequestError" 400
       | some request_data =>
           match execute_sync eng (allowed_operation_types cfg r.method)
               request_data { status_code := 200 } with
           | Except.error op =>
               error_response (as_http_error_reason op r.method)
                 "BadRequestError" 400
           | Except.ok (result, tr) =>
               { body := process_result result
                 status_code := tr.status_code
                 headers := [] }) := by
  unfold execute_request
  rw [if_neg (not_not_intro hm), hd]

theorem execute_request_no_query (cfg : Config) (eng : Engine)
    (loads : String → Option JsonValue) (r : Request)
    (d : List (String × JsonValue))
    (hm : r.method = "POST" ∨ r.method = "GET")
    (hd : get_request_data cfg loads r = Except.ok d)
    (hq : parse_request_data d = none) :
    execute_request cfg eng loads r =
      error_response "No GraphQL query found in the request"
        "BadRequestError" 400 := by
  rw [execute_request_of_data cfg eng loads r d hm hd, hq]

theorem execute_request_run (cfg : Config) (eng : Engine)
    (loads : String → Option JsonValue) (r : Request)
    (d : List (String × JsonValue)) (rd : GraphQLRequestData)
    (hm : r.method = "POST" ∨ r.method = "GET")
    (hd : get_request_data cfg loads r = Except.ok d)
    (hp : parse_request_data d = some rd) :
    execute_request cfg eng loads r =
      (match execute_sync eng (allowed_operation_types cfg r.method) rd
          { status_code := 200 } with
       | Except.error op =>
           error_response (as_http_error_reason op r.method)
             "BadRequestError" 400
       | Except.ok (result, tr) =>
           { body := process_result result
             status_code := tr.status_code
             headers := [] }) := by
  rw [execute_request_of_data cfg eng loads r d hm hd, hp]

theorem execute_request_invalid_op (cfg : Config) (eng : Engine)
    (loads : String → Option JsonValue) (r : Request)
    (d : List (String × JsonValue)) (rd : GraphQLRequestData)
    (hm : r.method = "POST" ∨ r.method = "GET")
    (hd : get_request_data cfg loads r = Except.ok d)
    (hp : parse_request_data d = some rd)
    (hop : eng.opType rd ∉ allowed_operation_types cfg r.method) :
    execute_request cfg eng loads r =
      error_response (as_http_error_reason (eng.opType rd) r.method)
        "BadRequestError" 400 := by
  rw [execute_request_run cfg eng loads r d rd hm hd hp,
    execute_sync_not_allowed _ _ _ _ hop]

theorem execute_request_engine_ok (cfg : Config) (eng : Engine)
    (loads : String → Option JsonValue) (r : Request)
    (d : List (String × JsonValue)) (rd : GraphQLRequestData)
    (hm : r.method = "POST" ∨ r.method = "GET")
    (hd : get_request_data cfg loads r = Except.ok d)
    (hp : parse_request_data d = some rd)
    (hop : eng.opType rd ∈ allowed_operation_types cfg r.method) :
    execute_request cfg eng loads r =
      { body := process_result (eng.run rd)
        status_code := (eng.setStatus rd).getD 200
        headers := [] } := by
  rw [execute_request_run cfg eng loads r d rd hm hd hp,
    execute_sync_allowed _ _ _ _ hop]

theorem get_request_data_json_error (cfg : Config)
    (loads : String → Option JsonValue) (r : Request)
    (hct : strContains (headers_get r.headers "content-type" "")
      "application/json" = true)
    (hb : r.json_body = none) :
    get_request_data cfg loads r =
      Except.error (error_response "Unable to parse request body as JSON"
        "BadRequestError" 400) := by
  unfold get_request_data
  rw [if_pos hct, hb]

theorem get_request_data_json_nondict (cfg : Config)
    (loads : String → Option JsonValue) (r : Request) (v : JsonValue)
    (hct : strContains (headers_get r.headers "content-type" "")
      "application/json" = true)
    (hb : r.json_body = some v)
    (hv : ∀ fields, v ≠ JsonValue.obj fields) :
    get_request_data cfg loads r =
      Except.error (error_response
        "Provide a valid graphql query in the body of your request"
        "BadRequestError" 400) := by
  unfold get_request_data
  rw [if_pos hct, hb]
  cases v with
  | obj fields => exact absurd rfl (hv fields)
  | null => rfl
  | bool b => rfl
  | num n => rfl
  | str s => rfl
  | arr elts => rfl

theorem get_request_data_json_dict (cfg : Config)
    (loads : String → Option JsonValue) (r : Request)
    (fields : List (String × JsonValue))
    (hct : strContains (headers_get r.headers "content-type" "")
      "application/json" = true)
    (hb : r.json_body = some (JsonValue.obj fields)) :
    get_request_data cfg loads r = Except.ok fields := by
  unfold get_request_data
  rw [if_pos hct, hb]

theorem get_request_data_params (cfg : Config)
    (loads : String → Option JsonValue) (r : Request)
    (hct : strContains (headers_get r.headers "content-type" "")
      "application/json" = false)
    (hm : r.method = "GET") (hqp : r.query_params ≠ []) :
    get_request_data cfg loads r =
      (match parse_query_params loads r.query_params with
       | none =>
           Except.error (error_response "Unable to parse request body as JSON"
             "BadRequestError" 400)
       | some d => Except.ok d) := by
  unfold get_request_data
  rw [if_neg (by simp [hct]), if_pos ⟨hm, hqp⟩]

theorem get_request_data_graphiql (cfg : Config)
    (loads : String → Option JsonValue) (r : Request)
    (hct : strContains (headers_get r.headers "content-type" "")
      "application/json" = false)
    (hm : r.method = "GET") (hqp : r.query_params = [])
    (hsr : should_render_graphiql cfg.graphiql r = true) :
    get_request_data cfg loads r = Except.error graphiql_response := by
  unfold get_request_data
  rw [if_neg (by simp [hct]), if_neg (by simp [hqp]), if_pos ⟨hm, hsr⟩]
  rfl

theorem get_request_data_not_found (cfg : Config)
    (loads : String → Option JsonValue) (r : Request)
    (hct : strContains (headers_get r.headers "content-type" "")
      "application/json" = false)
    (h2 : ¬ (r.method = "GET" ∧ r.query_params ≠ []))
    (h3 : ¬ (r.method = "GET" ∧ should_render_graphiql cfg.graphiql r = true)) :
    get_request_data cfg loads r =
      Except.error (error_response "Not found" "NotFoundError" 404) := by
  unfold get_request_data
  rw [if_neg (by simp [hct]), if_neg h2, if_neg h3]

theorem get_request_data_shape (cfg : Config)
    (loads : String → Option JsonValue) (r : Request) :
    (∃ msg code s, get_request_data cfg loads r
        = Except.error (error_response msg code s) ∧ (s = 400 ∨ s = 404))
    ∨ (get_request_data cfg loads r = Except.error graphiql_response
        ∧ r.method = "GET"
        ∧ strContains (headers_get r.headers "content-type" "")
            "application/json" = false
        ∧ r.query_params = []
        ∧ cfg.graphiql = true
        ∧ should_render_graphiql cfg.graphiql r = true)
    ∨ (∃ d, get_request_data cfg loads r = Except.ok d) := by
  by_cases hct : strContains (headers_get r.headers "content-type" "")
      "application/json" = true
  · cases hb : r.json_body with
    | none =>
        exact Or.inl ⟨_, _, 400,
          get_request_data_json_error cfg loads r hct hb, Or.inl rfl⟩
    | some v =>
        cases v with
        | obj fields =>
            exact Or.inr (Or.inr
              ⟨fields, get_request_data_json_dict cfg loads r fields hct hb⟩)
        | null =>
            exact Or.inl ⟨_, _, 400, get_request_data_json_nondict cfg loads r
              _ hct hb (fun fields h => JsonValue.noConfusion h), Or.inl rfl⟩
        | bool b =>
            exact Or.inl ⟨_, _, 400, get_request_data_json_nondict cfg loads r
              _ hct hb (fun fields h => JsonValue.noConfusion h), Or.inl rfl⟩
        | num n =>
            exact Or.inl ⟨_, _, 400, get_request_data_json_nondict cfg loads r
              _ hct hb (fun fields h => JsonValue.noConfusion h), Or.inl rfl⟩
        | str s =>
            exact Or.inl ⟨_, _, 400, get_request_data_json_nondict cfg loads r
              _ hct hb (fun fields h => JsonValue.noConfusion h), Or.inl rfl⟩
        | arr elts =>
            exact Or.inl ⟨_, _, 400, get_request_data_json_nondict cfg loads r
              _ hct hb (fun fields h => JsonValue.noConfusion h), Or.inl rfl⟩
  · have hct' : strContains (headers_get r.headers "content-type" "")
        "application/json" = false := by
      simpa using hct
    by_cases h2 : r.method = "GET" ∧ r.query_params ≠ []
    · rw [get_request_data_params cfg loads r hct' h2.1 h2.2]
      cases hq : parse_query_params loads r.query_params with
      | none => exact Or.inl ⟨_, _, 400, rfl, Or.inl rfl⟩
      | some d => exact Or.inr (Or.inr ⟨d, rfl⟩)
    · by_cases h3 : r.method = "GET"
          ∧ should_render_graphiql cfg.graphiql r = true
      · have hqp : r.query_params = [] := by
          by_contra hne
          exact h2 ⟨h3.1, hne⟩
        have hg := should_render_graphiql_true_elim cfg.graphiql r h3.2
        exact Or.inr (Or.inl
          ⟨get_request_data_graphiql cfg loads r hct' h3.1 hqp h3.2,
            h3.1, hct', hqp, hg.1, h3.2⟩)
      · exact Or.inl ⟨_, _, 404,
          get_request_data_not_found cfg loads r hct' h2 h3, Or.inr rfl⟩

theorem execute_request_shape (cfg : Config) (eng : Engine)
    (loads : String → Option JsonValue) (r : Request) :
    (∃ msg code s, execute_request cfg eng loads r = error_response msg code s
        ∧ (s = 400 ∨ s = 404 ∨ s = 405))
    ∨ (execute_request cfg eng loads r = graphiql_response
        ∧ r.method = "GET"
        ∧ strContains (headers_get r.headers "content-type" "")
            "application/json" = false
        ∧ r.query_params = []
        ∧ cfg.graphiql = true
        ∧ should_render_graphiql cfg.graphiql r = true)
    ∨ (∃ res st, execute_request cfg eng loads r
        = { body := process_result res, status_code := st, headers := [] }) := by
  by_cases hm : r.method = "POST" ∨ r.method = "GET"
  · rcases get_request_data_shape cfg loads r with
      ⟨msg, code, s, hd, hs⟩ | ⟨hd, hrest⟩ | ⟨d, hd⟩
    · refine Or.inl ⟨msg, code, s, execute_request_early cfg eng loads r _ hm hd, ?_⟩
      rcases hs with h | h
      · exact Or.inl h
      · exact Or.inr (Or.inl h)
    · exact Or.inr (Or.inl ⟨execute_request_early cfg eng loads r _ hm hd, hrest⟩)
    · cases hp : parse_request_data d with
      | none =>
          exact Or.inl ⟨_, _, 400,
            execute_request_no_query cfg eng loads r d hm hd hp, Or.inl rfl⟩
      | some rd =>
          by_cases hop : eng.opType rd ∈ allowed_operation_types cfg r.method
          · exact Or.inr (Or.inr ⟨eng.run rd, (eng.setStatus rd).getD 200,
              execute_request_engine_ok cfg eng loads r d rd hm hd hp hop⟩)
          · exact Or.inl ⟨_, _, 400,
              execute_request_invalid_op cfg eng loads r d rd hm hd hp hop,
              Or.inl rfl⟩
  · refine Or.inl
      ⟨"Unsupported method, must be of request type POST or GET",
        "MethodNotAllowedError", 405, ?_, Or.inr (Or.inr rfl)⟩
    unfold execute_request
    rw [if_pos hm]

theorem allowed_operation_types_post (cfg : Config) :
    allowed_operation_types cfg "POST"
      = [OperationType.query, OperationType.mutation,
          OperationType.subscription] := by
  unfold allowed_operation_types OperationType.from_http
  rw [if_neg (fun h => absurd h.2 (by decide)),
    if_neg (by decide), if_pos (by decide)]

theorem allowed_operation_types_get_allowed (cfg : Config)
    (h : cfg.allow_queries_via_get = true) :
    allowed_operation_types cfg "GET" = [OperationType.query] := by
  unfold allowed_operation_types OperationType.from_http
  rw [if_neg (fun hc => by rw [h] at hc; exact Bool.noConfusion hc.1),
    if_pos rfl]

theorem allowed_operation_types_get_blocked (cfg : Config)
    (h : cfg.allow_queries_via_get = false) :
    allowed_operation_types cfg "GET" = [] := by
  unfold allowed_operation_types OperationType.from_http
  rw [if_pos ⟨h, rfl⟩, if_pos rfl]
  rfl

/-! ### Concrete requests used by the witnesses -/

/-- A PUT request. -/
def reqPut : Request :=
  { method := "PUT", headers := [], query_params := [], json_body := none }

/-- A POST request with JSON content type whose body is malformed JSON. -/
def reqBadJson : Request :=
  { method := "POST"
    headers := [("content-type", "application/json")]
    query_params := []
    json_body := none }

/-- A GET request with JSON content type carrying a mutation query. -/
def reqMutationViaGet : Request :=
  { method := "GET"
    headers := [("content-type", "application/json")]
    query_params := []
    json_body := some (JsonValue.obj
      [("query", JsonValue.str "mutation { bump }")]) }

/-- A GET request whose accept header prefers HTML (and nothing else set). -/
def reqGetHtml : Request :=
  { method := "GET"
    headers := [("accept", "text/html")]
    query_params := []
    json_body := none }

/-- A GET request with query-string parameters whose `variables` parameter is
malformed JSON. -/
def reqGetBadVars : Request :=
  { method := "GET"
    headers := []
    query_params := [("query", "\x7b hello \x7d"), ("variables", "not-json")]
    json_body := none }

/-- A POST request with a JSON body that is an empty mapping (no query). -/
def reqPostNoQuery : Request :=
  { method := "POST"
    headers := [("content-type", "application/json")]
    query_params := []
    json_body := some (JsonValue.obj []) }

/-- A POST request with a JSON body containing a mutation query. -/
def reqPostQuery : Request :=
  { method := "POST"
    headers := [("content-type", "application/json")]
    query_params := []
    json_body := some (JsonValue.obj
      [("query", JsonValue.str "mutation { bump }")]) }

/-- A POST request without a JSON content type, but with a body, query-string
parameters and an HTML-preferring accept header. -/
def reqPostPlain : Request :=
  { method := "POST"
    headers := [("accept", "text/html")]
    query_params := [("query", "q")]
    json_body := some (JsonValue.obj [("query", JsonValue.str "q")]) }

/-- A GET request whose accept header asks for JSON, not HTML. -/
def reqGetJsonAccept : Request :=
  { method := "GET"
    headers := [("accept", "application/json")]
    query_params := []
    json_body := none }

/-! ### Claims -/

/-- C1: the permitted operation kinds are determined from the HTTP method —
POST permits all kinds, GET permits query only, and with
`allow_queries_via_get` false a GET permits no kinds; whenever the requested
operation's kind is outside the permitted set, handling returns status 400
with an explanatory message that references the method (the method string
occurs in the message). -/
theorem operation_kind_policy (cfg : Config) (eng : Engine)
    (loads : String → Option JsonValue) (r : Request)
    (d : List (String × JsonValue)) (rd : GraphQLRequestData)
    (hm : r.method = "POST" ∨ r.method = "GET")
    (hd : get_request_data cfg loads r = Except.ok d)
    (hp : parse_request_data d = some rd)
    (hop : eng.opType rd ∉ allowed_operation_types cfg r.method) :
    allowed_operation_types cfg "POST"
      = [OperationType.query, OperationType.mutation,
          OperationType.subscription]
    ∧ (cfg.allow_queries_via_get = true →
        allowed_operation_types cfg "GET" = [OperationType.query])
    ∧ (cfg.allow_queries_via_get = false →
        allowed_operation_types cfg "GET" = [])
    ∧ execute_request cfg eng loads r
        = error_response (as_http_error_reason (eng.opType rd) r.method)
            "BadRequestError" 400
    ∧ strContains (as_http_error_reason (eng.opType rd) r.method) r.method
        = true :=
  ⟨allowed_operation_types_post cfg,
    fun h => allowed_operation_types_get_allowed cfg h,
    fun h => allowed_operation_types_get_blocked cfg h,
    execute_request_invalid_op cfg eng loads r d rd hm hd hp hop,
    as_http_error_reason_mentions_method (eng.opType rd) r.method⟩

/-- Witness for C1: a mutation sent via GET (with `allow_queries_via_get`
true) is rejected with 400 and a message mentioning GET. -/
theorem operation_kind_policy_witness :
    execute_request cfgW engW loadsW reqMutationViaGet
      = error_response (as_http_error_reason OperationType.mutation "GET")
          "BadRequestError" 400 :=
  (operation_kind_policy cfgW engW loadsW reqMutationViaGet
    [("query", JsonValue.str "mutation { bump }")]
    { query := JsonValue.str "mutation { bump }"
      variable_values := none
      operation_name := none }
    (Or.inr rfl) rfl rfl (by decide)).2.2.2.1

/-- C2: every response is either a structured error object whose body has
exactly the fields `Code` and `Message` (both strings) with status code in
{400, 404, 405}, or the explorer page (status 200), or the serialized
engine outcome.  In particular every recognized failure condition is
converted locally into such a structured response; `execute_request` is a
total function, so no failure propagates as an unhandled fault. -/
theorem structured_error_responses (cfg : Config) (eng : Engine)
    (loads : String → Option JsonValue) (r : Request) :
    (∃ code msg,
        (execute_request cfg eng loads r).body
          = JsonValue.obj
              [("Code", JsonValue.str code), ("Message", JsonValue.str msg)]
        ∧ ((execute_request cfg eng loads r).status_code = 400
            ∨ (execute_request cfg eng loads r).status_code = 404
            ∨ (execute_request cfg eng loads r).status_code = 405))
    ∨ ((execute_request cfg eng loads r).body
          = JsonValue.str render_graphiql_page
        ∧ (execute_request cfg eng loads r).status_code = 200)
    ∨ (∃ res, (execute_request cfg eng loads r).body = process_result res) := by
  rcases execute_request_shape cfg eng loads r with
    ⟨msg, code, s, he, hs⟩ | ⟨he, _⟩ | ⟨res, st, he⟩
  · refine Or.inl ⟨code, msg, by rw [he]; rfl, ?_⟩
    rw [he]
    simpa [error_response] using hs
  · exact Or.inr (Or.inl ⟨by rw [he]; try rfl, by rw [he]; try rfl⟩)
  · exact Or.inr (Or.inr ⟨res, by rw [he]; try rfl⟩)

/-- C3: a GET request without JSON content type and without query-string
parameters, with the explorer flag enabled and an accept header containing
`text/html` or `*/*`, yields the static explorer page with status 200 and
HTML content type.  The result is the constant `graphiql_response`, the same
for every engine, so the engine is not invoked; and the final conjunct shows
this is the only branch that can produce a non-engine page body (every other
branch produces an object body), pinning down the branch conditions. -/
theorem graphiql_branch (cfg : Config) (eng : Engine)
    (loads : String → Option JsonValue) (r : Request)
    (hm : r.method = "GET")
    (hct : strContains (headers_get r.headers "content-type" "")
      "application/json" = false)
    (hqp : r.query_params = [])
    (hg : cfg.graphiql = true)
    (hacc : strContains (headers_get r.headers "accept" "") "text/html" = true
        ∨ strContains (headers_get r.headers "accept" "") "*/*" = true) :
    execute_request cfg eng loads r = graphiql_response
    ∧ graphiql_response.status_code = 200
    ∧ graphiql_response.body = JsonValue.str render_graphiql_page
    ∧ graphiql_response.headers = [("content-type", "text/html")]
    ∧ ∀ (cfg' : Config) (eng' : Engine) (loads' : String → Option JsonValue)
        (r' : Request) (s : String),
        (execute_request cfg' eng' loads' r').body = JsonValue.str s →
        execute_request cfg' eng' loads' r' = graphiql_response
        ∧ s = render_graphiql_page
        ∧ r'.method = "GET"
        ∧ strContains (headers_get r'.headers "content-type" "")
            "application/json" = false
        ∧ r'.query_params = []
        ∧ cfg'.graphiql = true
        ∧ should_render_graphiql cfg'.graphiql r' = true := by
  have hsr : should_render_graphiql cfg.graphiql r = true := by
    unfold should_render_graphiql
    rw [if_neg (by simp [hg])]
    exact (Bool.or_eq_true _ _).mpr hacc
  refine ⟨execute_request_early cfg eng loads r _ (Or.inr hm)
      (get_request_data_graphiql cfg loads r hct hm hqp hsr),
    rfl, rfl, rfl, ?_⟩
  intro cfg' eng' loads' r' s hb
  rcases execute_request_shape cfg' eng' loads' r' with
    ⟨msg, code, st, he, _⟩ | ⟨he, h1, h2, h3, h4, h5⟩ | ⟨res, st, he⟩
  · rw [he] at hb
    exact absurd hb (by simp [error_response])
  · rw [he] at hb
    have hs : s = render_graphiql_page := by
      have := hb.symm
      simpa [graphiql_response] using this
    exact ⟨he, hs, h1, h2, h3, h4, h5⟩
  · rw [he] at hb
    exact absurd hb (by simp [process_result])

/-- Witness for C3: a GET request with accept `text/html` and the explorer
enabled receives the explorer page. -/
theorem graphiql_branch_witness :
    execute_request cfgW engW loadsW reqGetHtml = graphiql_response :=
  (graphiql_branch cfgW engW loadsW reqGetHtml rfl rfl rfl rfl
    (Or.inl rfl)).1

/-- C4: under a JSON content type the body is parsed as JSON; a malformed
body (`json_body = none`, Chalice's `BadRequestError`) or a body that parses
to a non-mapping value yields a structured 400 error. -/
theorem json_body_validation (cfg : Config) (eng : Engine)
    (loads : String → Option JsonValue) (r : Request)
    (hm : r.method = "POST" ∨ r.method = "GET")
    (hct : strContains (headers_get r.headers "content-type" "")
      "application/json" = true) :
    (r.json_body = none →
        execute_request cfg eng loads r
          = error_response "Unable to parse request body as JSON"
              "BadRequestError" 400)
    ∧ (∀ v, r.json_body = some v → (∀ fields, v ≠ JsonValue.obj fields) →
        execute_request cfg eng loads r
          = error_response
              "Provide a valid graphql query in the body of your request"
              "BadRequestError" 400) := by
  constructor
  · intro hb
    exact execute_request_early cfg eng loads r _ hm
      (get_request_data_json_error cfg loads r hct hb)
  · intro v hb hv
    exact execute_request_early cfg eng loads r _ hm
      (get_request_data_json_nondict cfg loads r v hct hb hv)

/-- Witness for C4: a POST with JSON content type and a malformed body gets
the 400 parse error. -/
theorem json_body_validation_witness :
    execute_request cfgW engW loadsW reqBadJson
      = error_response "Unable to parse request body as JSON"
          "BadRequestError" 400 :=
  (json_body_validation cfgW engW loadsW reqBadJson (Or.inl rfl) rfl).1 rfl

/-- C5: a request whose method is neither GET nor POST is rejected with a
structured 405 error.  The result is a constant: it does not depend on the
engine, the JSON decoder, the body, the headers or the query parameters, so
the rejection happens before any body parsing or engine execution. -/
theorem method_not_allowed (cfg : Config) (eng : Engine)
    (loads : String → Option JsonValue) (r : Request)
    (hm : ¬ (r.method = "POST" ∨ r.method = "GET")) :
    execute_request cfg eng loads r
      = error_response "Unsupported method, must be of request type POST or GET"
          "MethodNotAllowedError" 405 := by
  unfold execute_request
  rw [if_pos hm]

/-- Witness for C5: a PUT request gets the 405 error. -/
theorem method_not_allowed_witness :
    execute_request cfgW engW loadsW reqPut
      = error_response "Unsupported method, must be of request type POST or GET"
          "MethodNotAllowedError" 405 :=
  method_not_allowed cfgW engW loadsW reqPut (by decide)

/-- C6: a GET without JSON content type but with query-string parameters has
those parameters parsed into the same mapping shape as a JSON body (the
parsed mapping is fed to the same downstream pipeline); malformed JSON inside
a parameter yields a structured 400 error. -/
theorem get_query_params_branch (cfg : Config) (eng : Engine)
    (loads : String → Option JsonValue) (r : Request)
    (hm : r.method = "GET")
    (hct : strContains (headers_get r.headers "content-type" "")
      "application/json" = false)
    (hqp : r.query_params ≠ []) :
    (parse_query_params loads r.query_params = none →
        execute_request cfg eng loads r
          = error_response "Unable to parse request body as JSON"
              "BadRequestError" 400)
    ∧ (∀ d, parse_query_params loads r.query_params = some d →
        get_request_data cfg loads r = Except.ok d) := by
  constructor
  · intro hq
    refine execute_request_early cfg eng loads r _ (Or.inr hm) ?_
    rw [get_request_data_params cfg loads r hct hm hqp, hq]
  · intro d hq
    rw [get_request_data_params cfg loads r hct hm hqp, hq]

/-- Witness for C6: a GET whose `variables` parameter is not valid JSON gets
the 400 parse error. -/
theorem get_query_params_branch_witness :
    execute_request cfgW engW loadsW reqGetBadVars
      = error_response "Unable to parse request body as JSON"
          "BadRequestError" 400 :=
  (get_query_params_branch cfgW engW loadsW reqGetBadVars rfl rfl
    (by decide)).1 rfl

/-- C7: when the extracted mapping contains no `"query"` entry, handling
returns a structured 400 error.  The result is the same for every engine, so
the request is never passed to the GraphQL engine. -/
theorem missing_query_rejected (cfg : Config) (eng : Engine)
    (loads : String → Option JsonValue) (r : Request)
    (d : List (String × JsonValue))
    (hm : r.method = "POST" ∨ r.method = "GET")
    (hd : get_request_data cfg loads r = Except.ok d)
    (hq : d.lookup "query" = none) :
    execute_request cfg eng loads r
      = error_response "No GraphQL query found in the request"
          "BadRequestError" 400 := by
  refine execute_request_no_query cfg eng loads r d hm hd ?_
  unfold parse_request_data
  rw [hq]

/-- Witness for C7: a POST whose JSON body is an empty mapping gets the 400
missing-query error. -/
theorem missing_query_rejected_witness :
    execute_request cfgW engW loadsW reqPostNoQuery
      = error_response "No GraphQL query found in the request"
          "BadRequestError" 400 :=
  missing_query_rejected cfgW engW loadsW reqPostNoQuery [] (Or.inl rfl)
    rfl rfl

/-- C8: when the engine executes successfully, the response body is the
serialized execution outcome and the status code is the one set on the
mutable response placeholder by the engine, defaulting to 200 when the
engine left it untouched. -/
theorem engine_success_status (cfg : Config) (eng : Engine)
    (loads : String → Option JsonValue) (r : Request)
    (d : List (String × JsonValue)) (rd : GraphQLRequestData)
    (hm : r.method = "POST" ∨ r.method = "GET")
    (hd : get_request_data cfg loads r = Except.ok d)
    (hp : parse_request_data d = some rd)
    (hop : eng.opType rd ∈ allowed_operation_types cfg r.method) :
    execute_request cfg eng loads r
      = { body := process_result (eng.run rd)
          status_code := (eng.setStatus rd).getD 200
          headers := [] }
    ∧ (eng.setStatus rd = none →
        (execute_request cfg eng loads r).status_code = 200) := by
  have h := execute_request_engine_ok cfg eng loads r d rd hm hd hp hop
  refine ⟨h, fun hn => ?_⟩
  rw [h, hn]
  rfl

/-- Witness for C8: a successful POST mutation returns the serialized
outcome with the default status 200. -/
theorem engine_success_status_witness :
    execute_request cfgW engW loadsW reqPostQuery
      = { body := process_result
            { data := JsonValue.null, errors := [], extensions := [] }
          status_code := 200
          headers := [] } :=
  (engine_success_status cfgW engW loadsW reqPostQuery
    [("query", JsonValue.str "mutation { bump }")]
    { query := JsonValue.str "mutation { bump }"
      variable_values := none
      operation_name := none }
    (Or.inl rfl) rfl rfl (by decide)).1

/-- C9: a POST whose content type does not contain `application/json` falls
through to the 404 branch, regardless of body, query parameters or accept
header: the query-string and explorer branches require the GET method. -/
theorem post_without_json_not_found (cfg : Config) (eng : Engine)
    (loads : String → Option JsonValue) (r : Request)
    (hm : r.method = "POST")
    (hct : strContains (headers_get r.headers "content-type" "")
      "application/json" = false) :
    execute_request cfg eng loads r
      = error_response "Not found" "NotFoundError" 404 := by
  refine execute_request_early cfg eng loads r _ (Or.inl hm) ?_
  refine get_request_data_not_found cfg loads r hct ?_ ?_
  · rintro ⟨h1, _⟩
    rw [hm] at h1
    exact absurd h1 (by decide)
  · rintro ⟨h1, _⟩
    rw [hm] at h1
    exact absurd h1 (by decide)

/-- Witness for C9: a non-JSON POST carrying a body, query parameters and an
HTML-preferring accept header still gets 404. -/
theorem post_without_json_not_found_witness :
    execute_request cfgW engW loadsW reqPostPlain
      = error_response "Not found" "NotFoundError" 404 :=
  post_without_json_not_found cfgW engW loadsW reqPostPlain rfl rfl

/-- C10: a GET without JSON content type and without query-string parameters
whose accept header (missing header read as the empty string) contains
neither `text/html` nor `*/*` as a substring gets the 404 error even when the
explorer flag is enabled (the configuration is arbitrary here). -/
theorem get_without_html_accept_not_found (cfg : Config) (eng : Engine)
    (loads : String → Option JsonValue) (r : Request)
    (hm : r.method = "GET")
    (hct : strContains (headers_get r.headers "content-type" "")
      "application/json" = false)
    (hqp : r.query_params = [])
    (h1 : strContains (headers_get r.headers "accept" "") "text/html" = false)
    (h2 : strContains (headers_get r.headers "accept" "") "*/*" = false) :
    execute_request cfg eng loads r
      = error_response "Not found" "NotFoundError" 404 := by
  refine execute_request_early cfg eng loads r _ (Or.inr hm) ?_
  refine get_request_data_not_found cfg loads r hct ?_ ?_
  · rintro ⟨_, hq⟩
    exact hq hqp
  · rintro ⟨_, hsr⟩
    rw [should_render_graphiql_false_of_accept cfg.graphiql r h1 h2] at hsr
    exact Bool.noConfusion hsr

/-- Witness for C10: a GET with accept `application/json` and the explorer
flag enabled gets 404. -/
theorem get_without_html_accept_not_found_witness :
    execute_request cfgW engW loadsW reqGetJsonAccept
      = error_response "Not found" "NotFoundError" 404 :=
  get_without_html_accept_not_found cfgW engW loadsW reqGetJsonAccept
    rfl rfl rfl (by decide) (by decide)
